import Mathlib

/-!
Verification of the course-scraper in src/app.py (class IndividualCollegeScraper).

The Python source is shallowly embedded:
* HTML documents (BeautifulSoup values) become a `Soup` structure carrying exactly
  the views the code reads: the list of tables, the CSS-select results, the page
  text and the title.
* The `re` library is external; `re.search`/`re.findall` become oracle parameters
  (`ReSearch`, `ReFindAll`).  A match carries the whole match (`group0`) and the
  first capture group when the pattern has one (`group1`); accessing `group(1)`
  of a pattern with no capture group raises `IndexError` in Python, modelled as
  an `Except` error.
* The HTTP transport (`requests.Session.get`) is an oracle `TransportResult`;
  Python exceptions crossing function boundaries are modelled with `Except PyExn`.
* Streamlit calls (`st.info` etc.) only append messages to the UI; where the
  claims need them they are modelled as an explicit message log threaded through
  the computation; everywhere else they are dropped since nothing reads them.
-/

/-! ## String helpers (Python `in`, `str.rstrip('/')`) -/

/-- Does the list start with the given pattern list? -/
def listStartsWith : List Char → List Char → Bool
  | _, [] => true
  | [], _ :: _ => false
  | a :: as, b :: bs => a == b && listStartsWith as bs

/-- Does `needle` occur as a contiguous sublist of the haystack? -/
def listHasSub (needle : List Char) : List Char → Bool
  | [] => listStartsWith [] needle
  | h :: t => listStartsWith (h :: t) needle || listHasSub needle t

/-- Python `needle in hay` on strings. -/
def pyInStr (needle hay : String) : Bool :=
  listHasSub needle.data hay.data

/-- Python `s.rstrip('/')` (src/app.py:621): remove every trailing `'/'`. -/
def pyRstripSlash (s : String) : String :=
  ⟨(s.data.reverse.dropWhile (fun c => c = '/')).reverse⟩

/-- Python `s.lower()`: lower-case character by character. -/
def pyLower (s : String) : String := ⟨s.data.map Char.toLower⟩

/-- Python `s.strip()`: remove leading and trailing whitespace. -/
def pyStrip (s : String) : String :=
  ⟨((s.data.dropWhile Char.isWhitespace).reverse.dropWhile Char.isWhitespace).reverse⟩

/-- Python `s[:n]`: the first `n` characters. -/
def pyTake (s : String) (n : Nat) : String := ⟨s.data.take n⟩

/-! ## Document model -/

/-- An HTML element as the code reads it: `get_text()` and `get_text(strip=True)`. -/
structure HtmlElem where
  text : String
  textStrip : String
deriving Repr, DecidableEq

/-- A table row: the `get_text(strip=True)` of its `td`/`th` cells. -/
structure HtmlRow where
  cells : List String
deriving Repr, DecidableEq

/-- An HTML table: its `tr` rows (first row is the header row). -/
structure HtmlTable where
  rows : List HtmlRow
deriving Repr, DecidableEq

/-- A parsed document (BeautifulSoup handle), restricted to the views the
scraper reads: `find_all('table')`, `select(sel)`, `get_text()`, `find('title')`. -/
structure Soup where
  tables : List HtmlTable
  select : String → List HtmlElem
  text : String
  title : Option String

/-- `soup.select_one(sel)`: first element of `soup.select(sel)`. -/
def Soup.selectOne (soup : Soup) (sel : String) : Option HtmlElem :=
  (soup.select sel).head?

/-! ## Regex oracle -/

/-- Result of a successful `re.search`: the whole match and, when the pattern has
a first capture group, its text. -/
structure ReMatch where
  group0 : String
  group1 : Option String
deriving Repr, DecidableEq

/-- Oracle for `re.search(pattern, text, ...)`. -/
def ReSearch := String → String → Option ReMatch

/-- Oracle for `re.findall(pattern, text, ...)`: for the patterns the code uses
with one capture group it returns the captured strings, for group-less patterns
the whole matches. -/
def ReFindAll := String → String → List String

/-! ## Field sub-extractors (src/app.py:401-460) -/

/-- The patterns of `extract_duration` (src/app.py:403-407). -/
def duration_patterns : List String :=
  ["(\\d+)\\s*(?:year|yr)s?",
   "(\\d+)\\s*(?:semester|sem)s?",
   "duration[:\\s]*(\\d+\\s*(?:year|yr)s?)"]

/-- Pattern loop of `extract_duration`: first match wins; the result is
`group(1) + " Years"` when the *pattern text* contains `'year'`, else `group(0)`
(in every pattern the capture group participates in any match, so `group(1)`
is a string). -/
def durationGo (search : ReSearch) (text : String) : List String → String
  | [] => "N/A"
  | p :: ps =>
    match search p text with
    | some m => if pyInStr "year" p then (m.group1.getD "") ++ " Years" else m.group0
    | none => durationGo search text ps

/-- `extract_duration` (src/app.py:401-413). -/
def extract_duration (search : ReSearch) (text : String) : String :=
  durationGo search text duration_patterns

/-- The patterns of `extract_fees` (src/app.py:417-423); none has a capture group,
the code only reads `group(0)`. -/
def fees_patterns : List String :=
  ["₹\\s*[\\d,]+(?:\\.\\d+)?(?:\\s*(?:lakh|crore|L|Cr))?",
   "Rs\\.?\\s*[\\d,]+(?:\\.\\d+)?(?:\\s*(?:lakh|crore|L|Cr))?",
   "fee[s]?[:\\s]*₹\\s*[\\d,]+",
   "fee[s]?[:\\s]*Rs\\.?\\s*[\\d,]+",
   "[\\d,]+(?:\\.\\d+)?\\s*(?:lakh|crore|L|Cr)"]

/-- Pattern loop of `extract_fees`: first match wins, result is `group(0)`. -/
def feesGo (search : ReSearch) (text : String) : List String → String
  | [] => "N/A"
  | p :: ps =>
    match search p text with
    | some m => m.group0
    | none => feesGo search text ps

/-- `extract_fees` (src/app.py:415-429). -/
def extract_fees (search : ReSearch) (text : String) : String :=
  feesGo search text fees_patterns

/-- The patterns of `extract_seats` (src/app.py:433-438); each has a capture group
that participates in every match. -/
def seats_patterns : List String :=
  ["(\\d+)\\s*seat[s]?",
   "intake[:\\s]*(\\d+)",
   "capacity[:\\s]*(\\d+)",
   "admission[s]?[:\\s]*(\\d+)"]

/-- Pattern loop of `extract_seats`: first match wins, result is `group(1)`. -/
def seatsGo (search : ReSearch) (text : String) : List String → String
  | [] => "N/A"
  | p :: ps =>
    match search p text with
    | some m => m.group1.getD ""
    | none => seatsGo search text ps

/-- `extract_seats` (src/app.py:431-444). -/
def extract_seats (search : ReSearch) (text : String) : String :=
  seatsGo search text seats_patterns

/-- The patterns of `extract_eligibility` (src/app.py:448-453).  Only the first
has a capture group; patterns 2-4 have none, so `match.group(1)` on them raises
`IndexError` in Python. -/
def eligibility_ex_patterns : List String :=
  ["(?:eligibility|qualification)[:\\s]*([^.!?]+[.!?])",
   "10\\+2[^.!?]*[.!?]",
   "graduation[^.!?]*[.!?]",
   "bachelor[^.!?]*[.!?]"]

/-- Pattern loop of `extract_eligibility`: on a match, the result is `group(0)`
when it contains `'10+2'`, otherwise `group(1)` — which raises when the pattern
has no group 1 — then stripped and truncated to 200 characters. -/
def eligibilityGo (search : ReSearch) (text : String) : List String → Except String String
  | [] => .ok "N/A"
  | p :: ps =>
    match search p text with
    | some m =>
      if pyInStr "10+2" m.group0 then .ok (pyTake (pyStrip m.group0) 200)
      else
        match m.group1 with
        | some g => .ok (pyTake (pyStrip g) 200)
        | none => .error "IndexError: no such group"
    | none => eligibilityGo search text ps

/-- `extract_eligibility` (src/app.py:446-460). -/
def extract_eligibility (search : ReSearch) (text : String) : Except String String :=
  eligibilityGo search text eligibility_ex_patterns

/-! ## Course records and the three extraction strategies (src/app.py:236-399) -/

/-- One extracted course record (the dict built at src/app.py:321-328 etc.). -/
structure Course where
  name : String
  duration : String
  fees : String
  seats : String
  eligibility : String
  source : String
deriving Repr, DecidableEq

/-- Degree keywords used to pick the course-name cell (src/app.py:311). -/
def degree_keywords : List String :=
  ["tech", "mba", "mca", "msc", "ma", "ba", "bca", "bsc", "diploma"]

/-- First cell that contains a degree keyword (substring of its lowercase text)
and has more than 5 characters (src/app.py:310-314). -/
def firstKeywordCell : List String → Option String
  | [] => none
  | c :: cs =>
    if (degree_keywords.any (fun k => pyInStr k (pyLower c))) ∧ 5 < c.length
    then some c
    else firstKeywordCell cs

/-- Course-name choice for a table row (src/app.py:309-317): keyword cell first,
else the first cell when non-empty and longer than 5 characters. -/
def rowCourseName (cells : List String) : Option String :=
  match firstKeywordCell cells with
  | some n => some n
  | none =>
    match cells with
    | t0 :: _ => if t0 ≠ "" ∧ 5 < t0.length then some t0 else none
    | [] => none

/-- One data row of `extract_courses_from_table` (src/app.py:301-329): rows with
fewer than 2 cells are skipped; the field extractors run on the space-joined cell
texts.  Only `extract_eligibility` can raise; the other dict entries are computed
first in the source, so the result is unchanged by evaluating it last. -/
def processRow (search : ReSearch) (tableName : String) (row : HtmlRow) : Except String (Option Course) :=
  if row.cells.length < 2 then .ok none
  else
    match rowCourseName row.cells with
    | none => .ok none
    | some nm =>
      match extract_eligibility search (String.intercalate " " row.cells) with
      | .error e => .error e
      | .ok elig =>
        .ok (some { name := nm,
                    duration := extract_duration search (String.intercalate " " row.cells),
                    fees := extract_fees search (String.intercalate " " row.cells),
                    seats := extract_seats search (String.intercalate " " row.cells),
                    eligibility := elig,
                    source := tableName })

/-- The row loop of `extract_courses_from_table` with the surrounding
`try/except` (src/app.py:291-334): a raised exception is caught outside the
loop, so the courses accumulated before it are returned. -/
def tableRowsGo (search : ReSearch) (tableName : String) : List HtmlRow → List Course → List Course
  | [], acc => acc.reverse
  | r :: rs, acc =>
    match processRow search tableName r with
    | .ok (some c) => tableRowsGo search tableName rs (c :: acc)
    | .ok none => tableRowsGo search tableName rs acc
    | .error _ => acc.reverse

/-- `extract_courses_from_table` (src/app.py:287-334).  The header row is
dropped (`find_all('tr')[1:]`); the `headers` list the source computes from it is
never used. -/
def extract_courses_from_table (search : ReSearch) (tableName : String) (table : HtmlTable) : List Course :=
  tableRowsGo search tableName (table.rows.drop 1) []

/-- The course-name patterns of `extract_course_from_element`
(src/app.py:342-348); each whole pattern is one capture group. -/
def course_elem_patterns : List String :=
  ["(B\\.?Tech\\.?\\s+[^,\\n]+)", "(M\\.?Tech\\.?\\s+[^,\\n]+)",
   "(MBA\\s*[^,\\n]*)", "(BCA\\s+[^,\\n]+)", "(MCA\\s+[^,\\n]+)",
   "(M\\.?Sc\\.?\\s+[^,\\n]+)", "(B\\.?Sc\\.?\\s+[^,\\n]+)",
   "(Bachelor\\s+of\\s+[^,\\n]+)", "(Master\\s+of\\s+[^,\\n]+)",
   "(Diploma\\s+in\\s+[^,\\n]+)", "(Certificate\\s+in\\s+[^,\\n]+)"]

/-- Pattern loop of `extract_course_from_element` (src/app.py:350-354): first
pattern whose stripped `group(1)` is longer than 5 characters. -/
def elemNameGo (search : ReSearch) (text : String) : List String → Option String
  | [] => none
  | p :: ps =>
    match search p text with
    | some m =>
      let nm := pyStrip (m.group1.getD "")
      if 5 < nm.length then some nm else elemNameGo search text ps
    | none => elemNameGo search text ps

/-- `extract_course_from_element` (src/app.py:336-365): the whole body sits in a
`try` whose `except` returns `None`, so an `IndexError` raised by
`extract_eligibility` turns the whole result into `none`. -/
def extract_course_from_element (search : ReSearch) (e : HtmlElem) : Option Course :=
  match elemNameGo search e.text course_elem_patterns with
  | none => none
  | some nm =>
    match extract_eligibility search e.text with
    | .error _ => none
    | .ok elig =>
      some { name := nm,
             duration := extract_duration search e.text,
             fees := extract_fees search e.text,
             seats := extract_seats search e.text,
             eligibility := elig,
             source := "element" }

/-- The text patterns with their prefixes (src/app.py:372-383). -/
def text_patterns : List (String × String) :=
  [("B\\.?Tech\\.?\\s+(?:in\\s+)?([^,\\n\\.]\x7b5,50\x7d)", "B.Tech"),
   ("M\\.?Tech\\.?\\s+(?:in\\s+)?([^,\\n\\.]\x7b5,50\x7d)", "M.Tech"),
   ("MBA\\s*(?:in\\s+)?([^,\\n\\.]\x7b0,30\x7d)", "MBA"),
   ("BCA\\s+(?:in\\s+)?([^,\\n\\.]\x7b5,40\x7d)", "BCA"),
   ("MCA\\s+(?:in\\s+)?([^,\\n\\.]\x7b5,40\x7d)", "MCA"),
   ("M\\.?Sc\\.?\\s+(?:in\\s+)?([^,\\n\\.]\x7b5,40\x7d)", "M.Sc"),
   ("B\\.?Sc\\.?\\s+(?:in\\s+)?([^,\\n\\.]\x7b5,40\x7d)", "B.Sc"),
   ("Diploma\\s+in\\s+([^,\\n\\.]\x7b5,40\x7d)", "Diploma"),
   ("Bachelor\\s+of\\s+([^,\\n\\.]\x7b5,40\x7d)", "Bachelor"),
   ("Master\\s+of\\s+([^,\\n\\.]\x7b5,40\x7d)", "Master")]

/-- Records produced by one text pattern (src/app.py:385-397): at most the first
10 matches are considered, matches whose stripped text has more than 3 characters
become a record named `prefix ++ " " ++ stripped` (the stripped text is non-empty
there, but the source's conditional is kept). -/
def coursesOfTextPattern (pp : String × String) (found : List String) : List Course :=
  (found.take 10).filterMap (fun mt =>
    if 3 < (pyStrip mt).length then
      some { name := (if pyStrip mt ≠ "" then pp.2 ++ " " ++ pyStrip mt else pp.2),
             duration := "N/A", fees := "N/A", seats := "N/A", eligibility := "N/A",
             source := "text_pattern" }
    else none)

/-- `extract_courses_from_text` (src/app.py:367-399). -/
def extract_courses_from_text (findall : ReFindAll) (text : String) : List Course :=
  (text_patterns.map (fun pp => coursesOfTextPattern pp (findall pp.1 text))).flatten

/-! ## Strategies, deduplication and the courses pipeline (src/app.py:236-285) -/

/-- Strategy 1 of `scrape_courses_page` (src/app.py:244-252): every table,
enumerated as "Table 1", "Table 2", ... -/
def courses_strategy1 (search : ReSearch) (soup : Soup) : List Course :=
  (soup.tables.enum.map (fun it =>
    extract_courses_from_table search ("Table " ++ toString (it.1 + 1)) it.2)).flatten

/-- The container selectors of strategy 2 (src/app.py:255-258). -/
def course_selectors : List String :=
  [".course-item", ".course-card", ".program-item", ".program-card",
   ".course-details", ".course-info", "[data-course]", ".course-list li"]

/-- Strategy 2 of `scrape_courses_page` (src/app.py:260-267): every selector's
elements through `extract_course_from_element`; it runs whether or not strategy 1
found anything. -/
def courses_strategy2 (search : ReSearch) (soup : Soup) : List Course :=
  (course_selectors.map (fun sel =>
    (soup.select sel).filterMap (extract_course_from_element search))).flatten

/-- The combined strategy output before deduplication (src/app.py:242-273):
strategies 1 and 2 always contribute; strategy 3 (text patterns) runs only when
they produced nothing. -/
def coursesAllStrategies (search : ReSearch) (findall : ReFindAll) (soup : Soup) : List Course :=
  if courses_strategy1 search soup ++ courses_strategy2 search soup = [] then
    (courses_strategy1 search soup ++ courses_strategy2 search soup)
      ++ extract_courses_from_text findall soup.text
  else
    courses_strategy1 search soup ++ courses_strategy2 search soup

/-- Normalised dedup key of a record: `course.get('name', '').lower().strip()`
(src/app.py:279). -/
def normTitle (c : Course) : String := pyStrip (pyLower c.name)

/-- The dedup loop of `scrape_courses_page` (src/app.py:276-282): keep a record
when its key is non-empty, unseen among *kept* records, and longer than 3
characters; the kept record itself is unchanged. -/
def dedupGo (seen : List String) : List Course → List Course
  | [] => []
  | c :: cs =>
    if normTitle c ≠ "" ∧ normTitle c ∉ seen ∧ 3 < (normTitle c).length then
      c :: dedupGo (normTitle c :: seen) cs
    else
      dedupGo seen cs

/-- Deduplication (src/app.py:275-283). -/
def dedupCourses (l : List Course) : List Course := dedupGo [] l

/-- Modelled from the spec's words (for comparison with `dedupCourses`): drop a
record when its normalised title occurred earlier in the list (kept or not) or is
below the minimum length, keeping first occurrences in order. -/
def dedupGoSpec (seen : List String) : List Course → List Course
  | [] => []
  | c :: cs =>
    if normTitle c ∉ seen ∧ 3 < (normTitle c).length then
      c :: dedupGoSpec (normTitle c :: seen) cs
    else
      dedupGoSpec (normTitle c :: seen) cs

/-- Spec-described deduplication (see `dedupGoSpec`). -/
def dedupCoursesSpec (l : List Course) : List Course := dedupGoSpec [] l

/-- The post-fetch body of `scrape_courses_page` (src/app.py:242-285). -/
def courses_pipeline (search : ReSearch) (findall : ReFindAll) (soup : Soup) : List Course :=
  dedupCourses (coursesAllStrategies search findall soup)

/-! ## make_request (src/app.py:105-132) -/

/-- Outcome of `self.session.get(url, timeout=20)`: a response with status code
and body, or a raised `requests.exceptions.RequestException`. -/
inductive TransportResult where
  | success (status : Nat) (content : String)
  | failure (msg : String)
deriving Repr, DecidableEq

/-- A Python exception as the handlers of `make_request` distinguish them:
`requests.exceptions.RequestException` (src/app.py:127) versus any other
`Exception` (src/app.py:130). -/
inductive PyExn where
  | requestExc (msg : String)
  | otherExc (msg : String)
deriving Repr, DecidableEq

/-- The `try` body of `make_request` (src/app.py:107-125): a transport failure
raises a RequestException; `raise_for_status()` raises `HTTPError` (a
RequestException) on a 4xx/5xx status; `BeautifulSoup(...)` may raise some other
Exception, modelled by the `parse` oracle.  The under-1000-byte check only emits
a warning and does not change the result. -/
def make_request_body (t : TransportResult) (parse : String → Except String Soup) : Except PyExn Soup :=
  match t with
  | .failure msg => .error (.requestExc msg)
  | .success status content =>
    if 400 ≤ status then .error (.requestExc ("HTTPError " ++ toString status))
    else
      match parse content with
      | .error m => .error (.otherExc m)
      | .ok soup => .ok soup

/-- `make_request` (src/app.py:105-132): both `except` clauses return `None`,
so every modelled exception is converted to `none`; the result the caller sees
is `Except.ok` of an optional document. -/
def make_request (t : TransportResult) (parse : String → Except String Soup) : Except PyExn (Option Soup) :=
  match make_request_body t parse with
  | .ok soup => .ok (some soup)
  | .error (.requestExc _) => .ok none
  | .error (.otherExc _) => .ok none

/-- Whether the transport outcome is a raised exception. -/
def TransportResult.isFailure : TransportResult → Bool
  | .failure _ => true
  | .success _ _ => false

/-- One call of `make_request` against a transport oracle indexed by attempt
number, paired with the number of underlying requests issued: the body contains
a single `session.get` and no retry loop, so exactly the outcome of attempt 0 is
consumed and the count is 1 on every path. -/
def make_request_run (t : Nat → TransportResult) (parse : String → Except String Soup) :
    Except PyExn (Option Soup) × Nat :=
  (make_request (t 0) parse, 1)

/-! ## Python dict model for the overview / admissions / placements results -/

/-- A Python value as stored in the scraper's result dicts: a string, a list of
strings, or a string-to-string dict. -/
inductive PyVal where
  | str (s : String)
  | strList (l : List String)
  | sdict (d : List (String × String))
deriving Repr, DecidableEq

/-- A Python dict: association list in key-insertion order. -/
def PyDict := List (String × PyVal)

/-- Python `d[k] = v` on a string-valued dict: update in place, else append. -/
def sdictSet (d : List (String × String)) (k : String) (v : String) : List (String × String) :=
  match d with
  | [] => [(k, v)]
  | (k', v') :: rest => if k' = k then (k', v) :: rest else (k', v') :: sdictSet rest k v

/-- Python `d[k] = v` on a result dict: update in place, else append. -/
def dictSet (d : PyDict) (k : String) (v : PyVal) : PyDict :=
  match d with
  | [] => [(k, v)]
  | (k', v') :: rest => if k' = k then (k', v) :: rest else (k', v') :: dictSet rest k v

/-- Python `d[k]` lookup (first, i.e. unique, binding). -/
def dictFind (d : PyDict) (k : String) : Option PyVal :=
  match d with
  | [] => none
  | (k', v') :: rest => if k' = k then some v' else dictFind rest k

/-! ## scrape_college_overview body (src/app.py:134-234) -/

/-- The name selectors (src/app.py:152-155). -/
def name_selectors : List String :=
  ["h1", ".college-name", ".university-name", ".main-heading",
   ".page-title", "[data-college-name]"]

/-- The overview selectors (src/app.py:200-203). -/
def overview_selectors : List String :=
  [".overview", ".description", ".about", ".college-info",
   ".summary", "[data-overview]"]

/-- The college-name loop (src/app.py:157-164): first selector whose element's
stripped text is longer than 5 characters and does not contain 'careers360'. -/
def pickCollegeName (soup : Soup) : List String → Option String
  | [] => none
  | sel :: sels =>
    match soup.selectOne sel with
    | some e =>
      if 5 < e.textStrip.length ∧ ¬ pyInStr "careers360" (pyLower e.textStrip) then some e.textStrip
      else pickCollegeName soup sels
    | none => pickCollegeName soup sels

/-- The overview-text loop (src/app.py:205-211): first selector whose element's
stripped text is longer than 100 characters, truncated to 500 plus "...". -/
def pickOverviewText (soup : Soup) : List String → Option String
  | [] => none
  | sel :: sels =>
    match soup.selectOne sel with
    | some e =>
      if 100 < e.textStrip.length then some (pyTake e.textStrip 500 ++ "...")
      else pickOverviewText soup sels
    | none => pickOverviewText soup sels

/-- Establishment-year pattern (src/app.py:170). -/
def established_pattern : String := "(?:established|founded).*?(\\d\x7b4\x7d)"

/-- The location patterns (src/app.py:175-178); these are searched without
IGNORECASE. -/
def location_patterns : List String :=
  ["(?:located in|address|campus).*?([A-Z][a-z]+(?:\\s+[A-Z][a-z]+)*,\\s*[A-Z][a-z]+)",
   "([A-Z][a-z]+,\\s*[A-Z][a-z]+(?:\\s+[A-Z][a-z]+)*)\\s*,?\\s*India"]

/-- The location loop (src/app.py:180-184): first matching pattern's `group(1)`
(the group participates in every match of these patterns). -/
def findLocation (search : ReSearch) (text : String) : List String → Option String
  | [] => none
  | p :: ps =>
    match search p text with
    | some m => some (m.group1.getD "")
    | none => findLocation search text ps

/-- The ranking patterns with their source tags (src/app.py:220-227). -/
def ranking_patterns : List (String × String) :=
  [("NIRF.*?rank.*?(\\d+)", "NIRF"),
   ("rank.*?(\\d+).*?NIRF", "NIRF"),
   ("QS.*?rank.*?(\\d+)", "QS"),
   ("rank.*?(\\d+).*?QS", "QS"),
   ("India Today.*?rank.*?(\\d+)", "India Today"),
   ("Outlook.*?rank.*?(\\d+)", "Outlook")]

/-- `extract_rankings` (src/app.py:215-234): each matching pattern writes
`rankings[source] = group(1)`; a later pattern with the same source tag
overwrites the earlier value. -/
def extract_rankings (search : ReSearch) (text : String) : List (String × String) :=
  ranking_patterns.foldl (fun acc ps =>
    match search ps.1 text with
    | some m => sdictSet acc ps.2 (m.group1.getD "")
    | none => acc) []

/-- College-type classification (src/app.py:187-192). -/
def collegeTypeUpdate (d : PyDict) (page_text : String) : PyDict :=
  if pyInStr "government" (pyLower page_text) ∨ pyInStr "public" (pyLower page_text) then
    dictSet d "type" (.str "Government")
  else if pyInStr "private" (pyLower page_text) then
    dictSet d "type" (.str "Private")
  else if pyInStr "deemed" (pyLower page_text) then
    dictSet d "type" (.str "Deemed University")
  else d

/-- The post-fetch body of `scrape_college_overview` (src/app.py:140-213):
the defaults dict updated field by field in source order. -/
def overview_body (search : ReSearch) (soup : Soup) : PyDict :=
  let d : PyDict :=
    [("name", .str "Unknown College"), ("location", .str "N/A"),
     ("established", .str "N/A"), ("type", .str "N/A"),
     ("affiliation", .str "N/A"), ("website", .str "N/A"),
     ("ranking", .sdict []), ("overview", .str "N/A")]
  let d := match pickCollegeName soup name_selectors with
    | some n => dictSet d "name" (.str n)
    | none => d
  let page_text := soup.text
  let d := match search established_pattern page_text with
    | some m => dictSet d "established" (.str (m.group1.getD ""))
    | none => d
  let d := match findLocation search page_text location_patterns with
    | some loc => dictSet d "location" (.str loc)
    | none => d
  let d := collegeTypeUpdate d page_text
  let rankings := extract_rankings search page_text
  let d := if rankings ≠ [] then dictSet d "ranking" (.sdict rankings) else d
  let d := match pickOverviewText soup overview_selectors with
    | some ov => dictSet d "overview" (.str ov)
    | none => d
  d

/-! ## scrape_admissions_page body (src/app.py:462-526) -/

/-- Entrance-exam keywords (src/app.py:480-483). -/
def exam_keywords : List String :=
  ["JEE Main", "JEE Advanced", "GATE", "CAT", "MAT", "XAT", "GMAT",
   "NEET", "CLAT", "JAM", "CSIR NET", "UGC NET", "TANCET", "KCET"]

/-- Eligibility-criteria findall patterns (src/app.py:490-494); no capture
groups, so findall yields the whole matches. -/
def adm_eligibility_patterns : List String :=
  ["(?:eligibility|qualification)[^.!?]*(?:10\\+2|graduation|bachelor)[^.!?]*[.!?]",
   "(?:minimum|required)[^.!?]*(?:marks|percentage|CGPA)[^.!?]*[.!?]",
   "(?:candidates|students)[^.!?]*(?:must|should|need)[^.!?]*[.!?]"]

/-- Application-fee patterns (src/app.py:503-507). -/
def adm_fee_patterns : List String :=
  ["application\\s+fee[:\\s]*₹\\s*[\\d,]+",
   "registration\\s+fee[:\\s]*₹\\s*[\\d,]+",
   "₹\\s*[\\d,]+[^.!?]*(?:application|registration)[^.!?]*fee"]

/-- Important-date findall patterns (src/app.py:516-519). -/
def adm_date_patterns : List String :=
  ["(?:last\\s+date|deadline|application)[^.!?]*(?:\\d\x7b1,2\x7d[/-]\\d\x7b1,2\x7d[/-]\\d\x7b4\x7d|\\d\x7b1,2\x7d\\s+[A-Za-z]+\\s+\\d\x7b4\x7d)",
   "(?:\\d\x7b1,2\x7d[/-]\\d\x7b1,2\x7d[/-]\\d\x7b4\x7d|\\d\x7b1,2\x7d\\s+[A-Za-z]+\\s+\\d\x7b4\x7d)[^.!?]*(?:last\\s+date|deadline|application)"]

/-- The fee loop (src/app.py:509-513): first matching pattern's `group(0)`. -/
def findAppFee (search : ReSearch) (text : String) : List String → Option String
  | [] => none
  | p :: ps =>
    match search p text with
    | some m => some m.group0
    | none => findAppFee search text ps

/-- The post-fetch body of `scrape_admissions_page` (src/app.py:468-526):
exams by keyword containment, eligibility criteria from the first 5 findall
matches per pattern that exceed 20 characters (appended stripped), the first
matching fee pattern, and the first 3 date matches per pattern (stripped). -/
def admissions_body (search : ReSearch) (findall : ReFindAll) (soup : Soup) : PyDict :=
  let page_text := soup.text
  let exams := exam_keywords.filter (fun e => pyInStr (pyLower e) (pyLower page_text))
  let elig := (adm_eligibility_patterns.map (fun p =>
    ((findall p page_text).take 5).filterMap (fun mt =>
      if 20 < mt.length then some (pyStrip mt) else none))).flatten
  let fee := findAppFee search page_text adm_fee_patterns
  let dates := (adm_date_patterns.map (fun p =>
    ((findall p page_text).take 3).map pyStrip)).flatten
  [("eligibility_criteria", .strList elig),
   ("entrance_exams", .strList exams),
   ("application_process", .strList []),
   ("important_dates", .strList dates),
   ("selection_process", .str "N/A"),
   ("application_fee", .str (fee.getD "N/A"))]

/-! ## scrape_placements_page body (src/app.py:528-596) -/

/-- The stats patterns per result key, in dict order (src/app.py:549-566). -/
def stats_patterns : List (String × List String) :=
  [("placement_rate",
    ["(\\d+(?:\\.\\d+)?)%[^.!?]*(?:placement|placed)",
     "placement[^.!?]*(\\d+(?:\\.\\d+)?)%"]),
   ("average_package",
    ["average[^.!?]*package[^.!?]*₹\\s*([\\d,]+(?:\\.\\d+)?)\\s*(?:lakh|crore|LPA)",
     "₹\\s*([\\d,]+(?:\\.\\d+)?)\\s*(?:lakh|crore|LPA)[^.!?]*average"]),
   ("highest_package",
    ["highest[^.!?]*package[^.!?]*₹\\s*([\\d,]+(?:\\.\\d+)?)\\s*(?:lakh|crore|LPA)",
     "₹\\s*([\\d,]+(?:\\.\\d+)?)\\s*(?:lakh|crore|LPA)[^.!?]*highest"]),
   ("median_package",
    ["median[^.!?]*package[^.!?]*₹\\s*([\\d,]+(?:\\.\\d+)?)\\s*(?:lakh|crore|LPA)",
     "₹\\s*([\\d,]+(?:\\.\\d+)?)\\s*(?:lakh|crore|LPA)[^.!?]*median"])]

/-- Recruiter keywords (src/app.py:579-587). -/
def recruiter_keywords : List String :=
  ["Microsoft", "Google", "Amazon", "Apple", "Facebook", "Netflix", "Adobe",
   "TCS", "Infosys", "Wipro", "IBM", "Accenture", "Deloitte", "Capgemini",
   "Goldman Sachs", "Morgan Stanley", "JPMorgan", "Deutsche Bank",
   "McKinsey", "BCG", "Bain", "EY", "PwC", "KPMG",
   "Samsung", "Intel", "Qualcomm", "Nvidia", "Oracle", "Salesforce",
   "Flipkart", "Paytm", "Ola", "Uber", "Swiggy", "Zomato", "PhonePe",
   "ISRO", "DRDO", "HAL", "BHEL", "ONGC", "NTPC", "L&T"]

/-- First matching pattern of a stats-pattern list (the inner loop with `break`
at src/app.py:568-576). -/
def firstStatMatch (search : ReSearch) (text : String) : List String → Option ReMatch
  | [] => none
  | p :: ps =>
    match search p text with
    | some m => some m
    | none => firstStatMatch search text ps

/-- The post-fetch body of `scrape_placements_page` (src/app.py:534-596):
defaults dict, stats keys filled from the first matching pattern
(`group(1)%` for the rate, `₹group(1) LPA` otherwise; `group(1)` participates
in every match of these patterns), recruiters by keyword containment truncated
to the first 15. -/
def placements_body (search : ReSearch) (soup : Soup) : PyDict :=
  let page_text := soup.text
  let d : PyDict :=
    [("placement_rate", .str "N/A"), ("average_package", .str "N/A"),
     ("highest_package", .str "N/A"), ("median_package", .str "N/A"),
     ("lowest_package", .str "N/A"), ("total_offers", .str "N/A"),
     ("companies_visited", .str "N/A"), ("top_recruiters", .strList []),
     ("sector_wise_placement", .sdict [])]
  let d := stats_patterns.foldl (fun acc kp =>
    match firstStatMatch search page_text kp.2 with
    | some m =>
      if kp.1 = "placement_rate" then
        dictSet acc kp.1 (.str ((m.group1.getD "") ++ "%"))
      else
        dictSet acc kp.1 (.str ("₹" ++ (m.group1.getD "") ++ " LPA"))
    | none => acc) d
  let recruiters := recruiter_keywords.filter (fun c => pyInStr (pyLower c) (pyLower page_text))
  dictSet d "top_recruiters" (.strList (recruiters.take 15))

/-! ## The four page-scrape entry points (fetch, then body or empty result) -/

/-- The shared entry shape of every `scrape_*` method: `soup =
self.make_request(url)`; `if not soup: return` the empty result; else the body.
A raised exception would propagate (`make_request` in fact never raises). -/
def afterFetch {α : Type} (r : Except PyExn (Option Soup)) (body : Soup → α) (emptyRes : α) : Except PyExn α :=
  match r with
  | .error e => .error e
  | .ok none => .ok emptyRes
  | .ok (some soup) => .ok (body soup)

/-- `scrape_college_overview` (src/app.py:134-213). -/
def scrape_college_overview (t : TransportResult) (parse : String → Except String Soup)
    (search : ReSearch) : Except PyExn PyDict :=
  afterFetch (make_request t parse) (fun soup => overview_body search soup) []

/-- `scrape_courses_page` (src/app.py:236-285). -/
def scrape_courses_page (t : TransportResult) (parse : String → Except String Soup)
    (search : ReSearch) (findall : ReFindAll) : Except PyExn (List Course) :=
  afterFetch (make_request t parse) (fun soup => courses_pipeline search findall soup) []

/-- `scrape_admissions_page` (src/app.py:462-526). -/
def scrape_admissions_page (t : TransportResult) (parse : String → Except String Soup)
    (search : ReSearch) (findall : ReFindAll) : Except PyExn PyDict :=
  afterFetch (make_request t parse) (fun soup => admissions_body search findall soup) []

/-- `scrape_placements_page` (src/app.py:528-596). -/
def scrape_placements_page (t : TransportResult) (parse : String → Except String Soup)
    (search : ReSearch) : Except PyExn PyDict :=
  afterFetch (make_request t parse) (fun soup => placements_body search soup) []

/-! ## Section-URL derivation (src/app.py:620-628) -/

/-- The auto-generated section URLs of `main`: `base_url = college_url.rstrip('/')`
then `f"{base_url}/courses"`, `f"{base_url}/admission"`, `f"{base_url}/placement"`. -/
def autoSectionUrls (college_url : String) : String × String × String :=
  let base_url := pyRstripSlash college_url
  (base_url ++ "/courses", base_url ++ "/admission", base_url ++ "/placement")

/-- Modelled from the spec's words (for comparison with `autoSectionUrls`):
remove the trailing slashes of the detail URL, structurally from the right. -/
def dropTrailingSlashesSpec (l : List Char) : List Char :=
  match l with
  | [] => []
  | c :: cs =>
    match dropTrailingSlashesSpec cs with
    | [] => if c = '/' then [] else [c]
    | r => c :: r

/-- Modelled from the spec's words: a section URL is the stripped detail URL,
a slash, and the section's name. -/
def sectionUrlSpec (detailUrl : String) (sectionName : String) : String :=
  ⟨dropTrailingSlashesSpec detailUrl.data⟩ ++ ("/" ++ sectionName)

/-! ## The courses page with its UI-message log (for the determinism claim) -/

/-- The per-table success messages of strategy 1 (src/app.py:248-252). -/
def strategy1Logs (search : ReSearch) (soup : Soup) : List String :=
  soup.tables.enum.filterMap (fun it =>
    let cs := extract_courses_from_table search ("Table " ++ toString (it.1 + 1)) it.2
    if cs ≠ [] then
      some ("Extracted " ++ toString cs.length ++ " courses from table " ++ toString (it.1 + 1))
    else none)

/-- The per-selector messages of strategy 2 (src/app.py:260-263). -/
def strategy2Logs (soup : Soup) : List String :=
  course_selectors.filterMap (fun sel =>
    if soup.select sel ≠ [] then
      some ("Found " ++ toString (soup.select sel).length ++ " course elements with selector: " ++ sel)
    else none)

/-- `scrape_courses_page` after the fetch, with the Streamlit messages it emits
threaded as an explicit append-only log (src/app.py:236-285). -/
def scrape_courses_pageL (search : ReSearch) (findall : ReFindAll)
    (fetched : Option Soup) (log : List String) : List Course × List String :=
  match fetched with
  | none => ([], log)
  | some soup =>
    let log := log ++ ["Found " ++ toString soup.tables.length ++ " tables on courses page"]
    let log := log ++ strategy1Logs search soup
    let log := log ++ strategy2Logs soup
    let courses := courses_strategy1 search soup ++ courses_strategy2 search soup
    let log := if courses = [] then log ++ ["Attempting text-based course extraction..."] else log
    let courses := if courses = [] then courses ++ extract_courses_from_text findall soup.text else courses
    let unique := dedupCourses courses
    (unique, log ++ ["Total unique courses found: " ++ toString unique.length])

/-! ## Concrete inputs used by the counterexamples and witnesses

Each concrete regex oracle below is justified against Python's `re` on exactly
the (pattern, text) pairs the embedded code consults for the concrete document
it accompanies; the justification is in the oracle's doc comment. -/

/-- The never-matching search oracle.  Faithful for every text below that
consists only of ASCII letters, spaces and a final period or "x": every
extractor pattern requires a digit, a comma, a currency mark (₹/Rs), or a
keyword (year/yr/sem/duration, fee/lakh/crore, seat/intake/capacity/admission,
eligibility/qualification/10+2/graduation/bachelor, degree names) that those
texts do not contain. -/
def reNone : ReSearch := fun _ _ => none

/-- The never-matching findall oracle.  Only consulted when strategies 1 and 2
find nothing; the concrete documents below never reach strategy 3 except where
an empty text makes the empty result faithful. -/
def findNone : ReFindAll := fun _ _ => []

/-- A transport stream that always raises a RequestException. -/
def alwaysFailT : Nat → TransportResult := fun _ => .failure "connection error"

/-- A single failing transport outcome. -/
def tFail : TransportResult := .failure "connection refused"

/-- A parse oracle for calls whose body is never parsed. -/
def parseBoom : String → Except String Soup := fun _ => .error "unreachable"

/-- The container element of the strategy-order counterexample. -/
def c1Elem : HtmlElem := { text := "MBA Finance", textStrip := "MBA Finance" }

/-- Document for the strategy-order counterexample: one table whose data row
names a course, and one `.course-item` container with the text "MBA Finance". -/
def c1Soup : Soup :=
  { tables := [⟨[⟨["h", "h"]⟩, ⟨["Course Alpha Acc", "x"]⟩]⟩],
    select := fun sel => if sel = ".course-item" then [c1Elem] else [],
    text := "",
    title := none }

/-- Python `re` on the texts of `c1Soup`: of all patterns the code consults,
only the course-name pattern `(MBA\s*[^,\n]*)` matches "MBA Finance" (whole
match and first group "MBA Finance"); no extractor pattern matches
"Course Alpha Acc x" or "MBA Finance" (no digits, commas, currency marks or
extractor keywords occur in them), and the remaining course-name patterns
require literals (Tech, BCA, Sc, Bachelor, ...) absent from "MBA Finance". -/
def c1Search : ReSearch := fun p t =>
  if p = "(MBA\\s*[^,\\n]*)" ∧ t = "MBA Finance" then
    some { group0 := "MBA Finance", group1 := some "MBA Finance" }
  else none

/-- Python `re` on the text "graduation required.": the first two eligibility
patterns need the literals `eligibility`/`qualification` or `10+2`, the fourth
needs `bachelor`; only `graduation[^.!?]*[.!?]` matches, with whole match
"graduation required." and no capture groups. -/
def eligCexSearch : ReSearch := fun p t =>
  if p = "graduation[^.!?]*[.!?]" ∧ t = "graduation required." then
    some { group0 := "graduation required.", group1 := none }
  else none

/-- 21 pairwise distinct course names; each is longer than 5 characters,
contains no degree keyword and no substring any extractor pattern requires. -/
def c8Names : List String :=
  ["Course Alpha Acc", "Course Alpha Acd", "Course Alpha Ace", "Course Alpha Acf",
   "Course Alpha Acg", "Course Alpha Adc", "Course Alpha Add", "Course Alpha Ade",
   "Course Alpha Adf", "Course Alpha Adg", "Course Alpha Aec", "Course Alpha Aed",
   "Course Alpha Aee", "Course Alpha Aef", "Course Alpha Aeg", "Course Alpha Afc",
   "Course Alpha Afd", "Course Alpha Afe", "Course Alpha Aff", "Course Alpha Afg",
   "Course Alpha Agc"]

/-- Document for the output-cap counterexample: one table with a header row and
21 data rows of two cells each. -/
def c8Soup : Soup :=
  { tables := [⟨⟨["h", "h"]⟩ :: c8Names.map (fun n => ⟨[n, "x"]⟩)⟩],
    select := fun _ => [],
    text := "",
    title := none }

/-- A successful transport outcome for the output-cap counterexample. -/
def c8T : TransportResult := .success 200 "page"

/-- Parsing the fetched content yields `c8Soup`. -/
def c8Parse : String → Except String Soup := fun _ => .ok c8Soup

/-! ## Helper lemmas -/

/-- A title longer than 3 characters is non-empty. -/
theorem ne_empty_of_three_lt {n : String} (h : 3 < n.length) : n ≠ "" := by
  intro he
  rw [he] at h
  exact absurd h (by decide)

/-- The code's dedup loop and the spec's dedup loop agree whenever the code's
seen-set (kept titles) and the spec's seen-set (all earlier titles) contain the
same titles of more than 3 characters. -/
theorem dedupGo_eq_spec (l : List Course) : ∀ s₁ s₂ : List String,
    (∀ n, n ∈ s₁ → n ∈ s₂) → (∀ n, n ∈ s₂ → 3 < n.length → n ∈ s₁) →
    dedupGo s₁ l = dedupGoSpec s₂ l := by
  induction l with
  | nil => intro s₁ s₂ h₁ h₂; rfl
  | cons c cs ih =>
    intro s₁ s₂ h₁ h₂
    by_cases hlen : 3 < (normTitle c).length
    · by_cases hmem : normTitle c ∈ s₁
      · rw [dedupGo, dedupGoSpec, if_neg (fun hh => hh.2.1 hmem),
          if_neg (fun hh => hh.1 (h₁ _ hmem))]
        exact ih s₁ (normTitle c :: s₂) (fun n hn => List.mem_cons_of_mem _ (h₁ n hn))
          (fun n hn hl => by
            rcases List.mem_cons.mp hn with rfl | hn'
            · exact hmem
            · exact h₂ n hn' hl)
      · have hs₂ : normTitle c ∉ s₂ := fun hh => hmem (h₂ _ hh hlen)
        rw [dedupGo, dedupGoSpec, if_pos ⟨ne_empty_of_three_lt hlen, hmem, hlen⟩,
          if_pos ⟨hs₂, hlen⟩]
        refine congrArg (c :: ·) (ih _ _ ?_ ?_)
        · intro n hn
          rcases List.mem_cons.mp hn with rfl | hn'
          · exact List.mem_cons_self _ _
          · exact List.mem_cons_of_mem _ (h₁ n hn')
        · intro n hn hl
          rcases List.mem_cons.mp hn with rfl | hn'
          · exact List.mem_cons_self _ _
          · exact List.mem_cons_of_mem _ (h₂ n hn' hl)
    · rw [dedupGo, dedupGoSpec, if_neg (fun hh => hlen hh.2.2), if_neg (fun hh => hlen hh.2)]
      exact ih s₁ (normTitle c :: s₂) (fun n hn => List.mem_cons_of_mem _ (h₁ n hn))
        (fun n hn hl => by
          rcases List.mem_cons.mp hn with rfl | hn'
          · exact absurd hl hlen
          · exact h₂ n hn' hl)

/-- The dedup loop keeps a subsequence of its input. -/
theorem dedupGo_sublist (l : List Course) : ∀ s, List.Sublist (dedupGo s l) l := by
  induction l with
  | nil => intro s; exact List.Sublist.refl []
  | cons c cs ih =>
    intro s
    rw [dedupGo]
    split
    · exact List.Sublist.cons₂ c (ih _)
    · exact List.Sublist.cons c (ih s)

/-- Members of the dedup loop's output are members of its input. -/
theorem mem_of_mem_dedupGo {c : Course} (l : List Course) :
    ∀ s, c ∈ dedupGo s l → c ∈ l := by
  induction l with
  | nil => intro s h; exact absurd h (List.not_mem_nil c)
  | cons a as ih =>
    intro s h
    rw [dedupGo] at h
    split at h
    · rcases List.mem_cons.mp h with rfl | h'
      · exact List.mem_cons_self _ _
      · exact List.mem_cons_of_mem _ (ih _ h')
    · exact List.mem_cons_of_mem _ (ih s h)

/-- Running the dedup loop again from the same seen-set changes nothing. -/
theorem dedupGo_idem (l : List Course) : ∀ s, dedupGo s (dedupGo s l) = dedupGo s l := by
  induction l with
  | nil => intro s; rfl
  | cons c cs ih =>
    intro s
    by_cases h : normTitle c ≠ "" ∧ normTitle c ∉ s ∧ 3 < (normTitle c).length
    · rw [dedupGo, if_pos h, dedupGo, if_pos h, ih (normTitle c :: s)]
    · rw [dedupGo, if_neg h]
      exact ih s

/-- A course built by `processRow` carries the table name as its source tag. -/
theorem processRow_source {search : ReSearch} {tableName : String} {row : HtmlRow}
    {c : Course} (h : processRow search tableName row = .ok (some c)) :
    c.source = tableName := by
  unfold processRow at h
  split at h
  · simp at h
  · split at h
    · simp at h
    · split at h
      · exact Except.noConfusion h
      · injection h with h'
        injection h' with h''
        rw [← h'']

/-- Every course the row loop emits beyond its accumulator carries the table
name as its source tag. -/
theorem tableRowsGo_source {search : ReSearch} {nm : String} {c : Course} :
    ∀ (rows : List HtmlRow) (acc : List Course), (∀ x ∈ acc, x.source = nm) →
    c ∈ tableRowsGo search nm rows acc → c.source = nm := by
  intro rows
  induction rows with
  | nil =>
    intro acc hacc h
    rw [tableRowsGo] at h
    exact hacc c (List.mem_reverse.mp h)
  | cons r rs ih =>
    intro acc hacc h
    rw [tableRowsGo] at h
    cases hpr : processRow search nm r with
    | error e =>
      rw [hpr] at h
      exact hacc c (List.mem_reverse.mp h)
    | ok o =>
      cases o with
      | none =>
        rw [hpr] at h
        exact ih acc hacc h
      | some c0 =>
        rw [hpr] at h
        refine ih (c0 :: acc) ?_ h
        intro x hx
        rcases List.mem_cons.mp hx with rfl | hx'
        · exact processRow_source hpr
        · exact hacc x hx'

/-- Every course of strategy 1 carries a "Table i" source tag. -/
theorem strategy1_source {search : ReSearch} {soup : Soup} {c : Course}
    (h : c ∈ courses_strategy1 search soup) : ∃ s, c.source = "Table " ++ s := by
  unfold courses_strategy1 at h
  rw [List.mem_flatten] at h
  obtain ⟨l, hl, hcl⟩ := h
  rw [List.mem_map] at hl
  obtain ⟨it, _, rfl⟩ := hl
  exact ⟨toString (it.1 + 1), tableRowsGo_source _ [] (by intro x hx; exact absurd hx (List.not_mem_nil x)) hcl⟩

/-- A course built by `extract_course_from_element` carries the "element"
source tag. -/
theorem elem_course_source {search : ReSearch} {e : HtmlElem} {c : Course}
    (h : extract_course_from_element search e = some c) : c.source = "element" := by
  unfold extract_course_from_element at h
  split at h
  · exact Option.noConfusion h
  · split at h
    · exact Option.noConfusion h
    · injection h with h'
      rw [← h']

/-- Every course of strategy 2 carries the "element" source tag. -/
theorem strategy2_source {search : ReSearch} {soup : Soup} {c : Course}
    (h : c ∈ courses_strategy2 search soup) : c.source = "element" := by
  unfold courses_strategy2 at h
  rw [List.mem_flatten] at h
  obtain ⟨l, hl, hcl⟩ := h
  rw [List.mem_map] at hl
  obtain ⟨sel, _, rfl⟩ := hl
  rw [List.mem_filterMap] at hcl
  obtain ⟨e, _, he⟩ := hcl
  exact elem_course_source he

/-- A "Table i" source tag is never the text-strategy tag. -/
theorem tableTag_ne_textPattern (s : String) : ("Table " ++ s) ≠ "text_pattern" := by
  obtain ⟨l⟩ := s
  intro h
  have h2 : ('T' :: 'a' :: 'b' :: 'l' :: 'e' :: ' ' :: l) =
      ('t' :: 'e' :: 'x' :: 't' :: '_' :: 'p' :: 'a' :: 't' :: 't' :: 'e' :: 'r' :: 'n' :: []) :=
    congrArg String.data h
  injection h2 with hT _
  exact absurd hT (by decide)

/-- Setting a dict key makes lookup of that key return the new value. -/
theorem dictFind_dictSet (d : PyDict) (k : String) (v : PyVal) :
    dictFind (dictSet d k v) k = some v := by
  induction d with
  | nil => simp [dictSet, dictFind]
  | cons kv rest ih =>
    obtain ⟨k', v'⟩ := kv
    by_cases hk : k' = k
    · simp [dictSet, dictFind, hk]
    · simp [dictSet, dictFind, hk, ih]

/-- Each text pattern contributes at most 10 records. -/
theorem coursesOfTextPattern_le (pp : String × String) (found : List String) :
    (coursesOfTextPattern pp found).length ≤ 10 := by
  unfold coursesOfTextPattern
  calc (List.filterMap _ (found.take 10)).length
      ≤ (found.take 10).length := List.length_filterMap_le _ _
    _ ≤ 10 := List.length_take_le _ _

/-- Flattening per-pattern record lists of length at most 10 is bounded by 10
records per pattern. -/
theorem flatten_textPattern_le (f : String × String → List Course)
    (hf : ∀ x, (f x).length ≤ 10) :
    ∀ ps : List (String × String), ((ps.map f).flatten).length ≤ 10 * ps.length := by
  intro ps
  induction ps with
  | nil => simp
  | cons p ps ih =>
    rw [List.map_cons, List.flatten_cons, List.length_append, List.length_cons]
    have h1 := hf p
    omega

/-- Python's `rstrip('/')` (reverse, drop, reverse) equals the spec-style
structural removal of trailing slashes. -/
theorem rstrip_eq_spec (l : List Char) :
    (l.reverse.dropWhile (fun c => c = '/')).reverse = dropTrailingSlashesSpec l := by
  induction l with
  | nil => rfl
  | cons c cs ih =>
    rw [List.reverse_cons, List.dropWhile_append, dropTrailingSlashesSpec]
    cases hr : dropTrailingSlashesSpec cs with
    | nil =>
      have hemp : cs.reverse.dropWhile (fun c => c = '/') = [] := by
        rw [hr] at ih
        exact List.reverse_eq_nil_iff.mp ih
      rw [hemp]
      by_cases hc : c = '/'
      · simp [List.dropWhile, hc]
      · simp [List.dropWhile, hc]
    | cons a as =>
      have hne : ¬ (cs.reverse.dropWhile (fun c => c = '/')).isEmpty = true := by
        intro hh
        rw [List.isEmpty_iff] at hh
        rw [hh, hr] at ih
        exact List.noConfusion (List.reverse_nil ▸ ih)
      rw [if_neg hne, List.reverse_append, ih, hr]
      rfl

/-! ## The claims -/

/-- C1 counterexample: for the document `c1Soup` the structured-table strategy
yields a record, yet a record produced by the later structured-container
strategy (source tag "element") still appears in the output — refuting that the
run stops at the first strategy that yields records. -/
theorem strategy_order_counterexample :
    courses_strategy1 c1Search c1Soup ≠ [] ∧
    ({ name := "MBA Finance", duration := "N/A", fees := "N/A", seats := "N/A",
       eligibility := "N/A", source := "element" } : Course)
      ∈ courses_pipeline c1Search findNone c1Soup := by
  constructor
  · decide
  · decide

/-- C1 (amended): the table and container strategies both always run and both
contribute records; only the free-text strategy is gated — when the first two
strategies together yield at least one record, no free-text record (source tag
"text_pattern") appears in the output. -/
theorem only_text_strategy_gated (search : ReSearch) (findall : ReFindAll) (soup : Soup)
    (h : courses_strategy1 search soup ++ courses_strategy2 search soup ≠ []) :
    ∀ c ∈ courses_pipeline search findall soup, c.source ≠ "text_pattern" := by
  intro c hc
  unfold courses_pipeline dedupCourses at hc
  have hmem : c ∈ coursesAllStrategies search findall soup := mem_of_mem_dedupGo _ [] hc
  unfold coursesAllStrategies at hmem
  rw [if_neg h] at hmem
  rcases List.mem_append.mp hmem with h1 | h2
  · obtain ⟨s, hs⟩ := strategy1_source h1
    rw [hs]
    exact tableTag_ne_textPattern s
  · rw [strategy2_source h2]
    decide

/-- C1 witness: the amended statement applied to the concrete document `c1Soup`. -/
theorem only_text_strategy_gated_witness :
    (courses_strategy1 c1Search c1Soup ++ courses_strategy2 c1Search c1Soup ≠ []) ∧
    ∀ c ∈ courses_pipeline c1Search findNone c1Soup, c.source ≠ "text_pattern" :=
  ⟨by decide, fun c hc => only_text_strategy_gated c1Search findNone c1Soup (by decide) c hc⟩

/-- C2 counterexample: against an always-failing transport, `make_request`
issues exactly 1 underlying attempt (not 3) and returns `None` — an
`Option` with no URL, reason or attempt count — not a FetchError value. -/
theorem retry_counterexample :
    (make_request_run alwaysFailT parseBoom).2 = 1 ∧
    (make_request_run alwaysFailT parseBoom).2 ≠ 3 ∧
    (make_request_run alwaysFailT parseBoom).1 = .ok none := by
  refine ⟨rfl, by decide, rfl⟩

/-- C2 (amended): a fetch whose underlying transport fails performs exactly one
underlying request attempt — there is no retry loop — and returns `None`
(carrying no URL, failure reason or attempt count) to its caller. -/
theorem single_attempt_no_retry (t : Nat → TransportResult)
    (parse : String → Except String Soup) (h : (t 0).isFailure = true) :
    make_request_run t parse = (.ok none, 1) := by
  unfold make_request_run make_request make_request_body
  cases ht : t 0 with
  | success status content =>
    exact absurd h (by simp [ht, TransportResult.isFailure])
  | failure msg =>
    rfl

/-- C2 witness: the amended statement at the concrete always-failing transport. -/
theorem single_attempt_no_retry_witness :
    make_request_run alwaysFailT parseBoom = (.ok none, 1) :=
  single_attempt_no_retry alwaysFailT parseBoom rfl

/-- C3: the code's deduplication equals the spec-described one — normalise each
title (lower-case, strip), drop a record whose normalised title occurred
earlier or has fewer than 4 characters — and the survivors form a subsequence
of the input, i.e. first-seen order is preserved. -/
theorem dedup_matches_spec (l : List Course) :
    dedupCourses l = dedupCoursesSpec l ∧ List.Sublist (dedupCourses l) l :=
  ⟨dedupGo_eq_spec l [] [] (fun n hn => absurd hn (List.not_mem_nil n))
      (fun n hn _ => absurd hn (List.not_mem_nil n)),
   dedupGo_sublist l []⟩

/-- C4: deduplication is idempotent — applying it to its own output (in
particular to any list that is already its own deduplication output) returns
the list unchanged. -/
theorem dedup_idempotent (l : List Course) :
    dedupCourses (dedupCourses l) = dedupCourses l :=
  dedupGo_idem l []

/-- C5: `make_request` never propagates an exception: for every transport
outcome (success, transport error, non-success status) and every parse outcome,
the result is an `Except.ok` value handed to the caller. -/
theorem make_request_never_raises (t : TransportResult)
    (parse : String → Except String Soup) :
    ∃ r, make_request t parse = Except.ok r := by
  cases hb : make_request_body t parse with
  | ok soup => exact ⟨some soup, by unfold make_request; rw [hb]⟩
  | error e =>
    cases e with
    | requestExc m => exact ⟨none, by unfold make_request; rw [hb]⟩
    | otherExc m => exact ⟨none, by unfold make_request; rw [hb]⟩

/-- C6: the claim fails on `extract_eligibility` — on the text
"graduation required." the pattern `graduation[^.!?]*[.!?]` matches, the match
does not contain "10+2", and `match.group(1)` raises IndexError because the
pattern has no capture group; the sub-extractor is not total. -/
theorem extract_eligibility_raises :
    extract_eligibility eligCexSearch "graduation required." =
      .error "IndexError: no such group" := by
  rfl

/-- C7: extraction is deterministic — for a fixed fetched document and fixed
oracles, the record list of the courses page does not depend on the
accumulated UI-message state, so two runs yield identical output lists. -/
theorem extraction_deterministic (search : ReSearch) (findall : ReFindAll)
    (fetched : Option Soup) (log₁ log₂ : List String) :
    (scrape_courses_pageL search findall fetched log₁).1 =
    (scrape_courses_pageL search findall fetched log₂).1 := by
  cases fetched <;> rfl

/-- C8 counterexample: a document with 21 distinct valid course rows yields 21
deduplicated course records — no cap in the 15-20 range is applied to the
course output. -/
theorem output_cap_counterexample :
    (Except.toOption (scrape_courses_page c8T c8Parse reNone findNone)).map
      List.length = some 21 ∧ 20 < 21 := by
  refine ⟨by decide, by decide⟩

/-- C8 (amended): the deduplicated course list is not capped; the fixed output
caps are 10 matches per pattern in the free-text strategy (at most 100 records
over its 10 patterns) and 15 entries in the placements top-recruiters list. -/
theorem output_caps_amended (search : ReSearch) (soup : Soup)
    (findall : ReFindAll) (text : String) :
    (∃ l, dictFind (placements_body search soup) "top_recruiters" =
        some (.strList l) ∧ l.length ≤ 15) ∧
    (extract_courses_from_text findall text).length ≤ 100 := by
  constructor
  · refine ⟨(recruiter_keywords.filter
        (fun c => pyInStr (pyLower c) (pyLower soup.text))).take 15, ?_, ?_⟩
    · exact dictFind_dictSet _ _ _
    · exact List.length_take_le _ _
  · have h := flatten_textPattern_le (fun pp => coursesOfTextPattern pp (findall pp.1 text))
      (fun pp => coursesOfTextPattern_le pp (findall pp.1 text)) text_patterns
    exact le_trans h (by decide)

/-- C9: for every detail-page URL, the auto-generated section URLs equal the
spec-described ones — the URL with trailing slashes stripped, a slash, and the
fixed per-section suffix (courses, admission, placement). -/
theorem section_urls_match_spec (college_url : String) :
    autoSectionUrls college_url =
      (sectionUrlSpec college_url "courses", sectionUrlSpec college_url "admission",
       sectionUrlSpec college_url "placement") := by
  unfold autoSectionUrls sectionUrlSpec pyRstripSlash
  rw [rstrip_eq_spec]
  rfl

/-- C10: whenever the fetch yields no document, every page-level scrape returns
the empty collection of its result type (empty dict for overview, admissions
and placements; empty list for courses) as a normal, non-exceptional value. -/
theorem fetch_fail_returns_empty (t : TransportResult)
    (parse : String → Except String Soup) (search : ReSearch) (findall : ReFindAll)
    (h : make_request t parse = .ok none) :
    scrape_college_overview t parse search = .ok [] ∧
    scrape_courses_page t parse search findall = .ok [] ∧
    scrape_admissions_page t parse search findall = .ok [] ∧
    scrape_placements_page t parse search = .ok [] := by
  refine ⟨?_, ?_, ?_, ?_⟩
  · unfold scrape_college_overview afterFetch
    rw [h]
  · unfold scrape_courses_page afterFetch
    rw [h]
  · unfold scrape_admissions_page afterFetch
    rw [h]
  · unfold scrape_placements_page afterFetch
    rw [h]

/-- C10 witness: the statement at a concrete failing transport. -/
theorem fetch_fail_returns_empty_witness :
    scrape_college_overview tFail parseBoom reNone = .ok [] ∧
    scrape_courses_page tFail parseBoom reNone findNone = .ok [] ∧
    scrape_admissions_page tFail parseBoom reNone findNone = .ok [] ∧
    scrape_placements_page tFail parseBoom reNone = .ok [] :=
  fetch_fail_returns_empty tFail parseBoom reNone findNone rfl
